import Mathlib

/-!
# Verification of the grok-cli orchestration runtime against its specification

Shallow embedding of the parts of the repository that the claims concern:

* the built-in shell-wrapper tools (`SystemctlTool`, `AptTool`, `NetworkTool`,
  `DiskTool`, `CodeExecutionTool`) from `src/tools/*`, with the external world
  (command execution outcomes, human confirmation decisions) passed in as
  explicit oracle values;
* the TUI streaming consumer `processUserMessage` from `src/tui/app.tsx`
  together with the `ChatProvider` history operations;
* the MCP tool-name handling from `src/commands/mcp.ts` and the
  `getToolActionName` parser of the chat history view;
* the headless entry points and the `--max-tool-rounds` CLI default from
  `src/index.ts`;
* the confirmation gate and the agent round loop, whose implementations
  (`ConfirmationService`, `GrokAgent`) are not among the provided sources,
  modelled from the specification where indicated.

JavaScript semantics that matter are embedded explicitly: `x || d` on strings
treats the empty string as falsy (`jsOrString`), optional arguments are
`Option String`, and a `!s` required-argument check fails on `none` and on the
empty string.
-/

/-- `ToolResult` from `src/types`: normalized outcome of any tool invocation.
`dataPresent` records whether the optional structured `data` field was set. -/
structure ToolResult where
  success : Bool
  output : Option String := none
  error : Option String := none
  dataPresent : Bool := false
deriving DecidableEq, Repr

/-- The per-category session auto-approval flags held by the
`ConfirmationService` singleton and read by every gated tool. -/
structure SessionFlags where
  fileOperations : Bool
  bashCommands : Bool
  allOperations : Bool
deriving DecidableEq, Repr

/-- The decision returned by `ConfirmationService.requestConfirmation`:
whether the human confirmed, and optional rejection feedback text. -/
structure ConfirmationResult where
  confirmed : Bool
  feedback : Option String
deriving DecidableEq, Repr

/-- JavaScript `x || d` for an optional string `x`: `undefined` and the empty
string are both falsy, so either yields the default `d`. -/
def jsOrString (x : Option String) (d : String) : String :=
  match x with
  | none => d
  | some s => if s = "" then d else s

/-- Outcome of one `execAsync` call: either resolved with stdout/stderr, or
rejected (non-zero exit, timeout, thrown exception) with an error message. -/
inductive ExecOutcome where
  | ok (stdout stderr : String)
  | err (msg : String)
deriving DecidableEq, Repr

/-- `stdout + (stderr ? "\nSTDERR: " + stderr : "")` followed by `.trim()`,
the output normalization shared by every shell-wrapper tool. -/
def execOutput (stdout stderr : String) : String :=
  (stdout ++ (if stderr = "" then "" else "\nSTDERR: " ++ stderr)).trim

/-- The shared success/failure conversion of a command outcome: on success the
trimmed output, with a placeholder when it is empty; on failure a message
built from the tool-specific failure text and the underlying error. -/
def commandOutcomeResult (failText : String) (e : ExecOutcome) : ToolResult :=
  match e with
  | .ok stdout stderr =>
      let out := execOutput stdout stderr
      { success := true
        output := some (if out = "" then "Command executed successfully (no output)" else out) }
  | .err m => { success := false, error := some (failText ++ m) }

/-- `runCommand` of `SystemctlTool` (and, with other texts, `AptTool`):
when confirmation is required and neither the `bashCommands` nor the
`allOperations` session flag is set, the confirmation gate is consulted;
a non-confirmed decision short-circuits with the feedback (or a default
cancellation message); otherwise the command executes.  The second component
records whether `requestConfirmation` was invoked. -/
def gatedRunCommand (cancelText failText : String) (flags : SessionFlags)
    (requiresConfirmation : Bool) (d : ConfirmationResult) (e : ExecOutcome) :
    ToolResult × Bool :=
  if requiresConfirmation && !flags.bashCommands && !flags.allOperations then
    if d.confirmed then
      (commandOutcomeResult failText e, true)
    else
      ({ success := false, error := some (jsOrString d.feedback cancelText) }, true)
  else
    (commandOutcomeResult failText e, false)

/-- `SystemctlTool.runCommand` from `src/tools/systemctl.ts`. -/
def systemctlRunCommand (flags : SessionFlags) (requiresConfirmation : Bool)
    (d : ConfirmationResult) (e : ExecOutcome) : ToolResult × Bool :=
  gatedRunCommand "Systemctl command cancelled by user" "Systemctl command failed: "
    flags requiresConfirmation d e

/-- `SystemctlTool.execute` from `src/tools/systemctl.ts`: validates the
service name, then dispatches on the operation string.  `start`, `stop`,
`restart`, `enable`, `disable` require confirmation; `status`, `is-active`
and `is-enabled` do not; `is-active`/`is-enabled` rewrite a successful
output to a sentence about the service. -/
def systemctlExecute (flags : SessionFlags) (d : ConfirmationResult)
    (e : ExecOutcome) (operation serviceName : String) : ToolResult × Bool :=
  if serviceName = "" then
    ({ success := false, error := some "Service name is required" }, false)
  else if operation = "start" ∨ operation = "stop" ∨ operation = "restart"
      ∨ operation = "enable" ∨ operation = "disable" then
    systemctlRunCommand flags true d e
  else if operation = "status" then
    systemctlRunCommand flags false d e
  else if operation = "is-active" ∨ operation = "is-enabled" then
    let r := systemctlRunCommand flags false d e
    if r.1.success then
      ({ r.1 with output := some ("Service " ++ serviceName ++ " is " ++ r.1.output.getD "") }, r.2)
    else r
  else
    ({ success := false
       error := some ("Unknown systemctl operation: " ++ operation ++
         ". Supported: start, stop, restart, status, enable, disable, is-active, is-enabled") },
     false)

/-- `AptTool.runCommand` from `src/tools/apt.ts`. -/
def aptRunCommand (flags : SessionFlags) (requiresConfirmation : Bool)
    (d : ConfirmationResult) (e : ExecOutcome) : ToolResult × Bool :=
  gatedRunCommand "Apt command cancelled by user" "Apt command failed: "
    flags requiresConfirmation d e

/-- `AptTool.execute`: `install`/`remove` validate the package name and,
like `update`/`upgrade`, require confirmation; `search`/`show` validate the
package name and do not. -/
def aptExecute (flags : SessionFlags) (d : ConfirmationResult) (e : ExecOutcome)
    (operation : String) (packageName : Option String) : ToolResult × Bool :=
  if operation = "install" ∨ operation = "remove" then
    if jsOrString packageName "" = "" then
      ({ success := false, error := some "Package name is required" }, false)
    else aptRunCommand flags true d e
  else if operation = "update" ∨ operation = "upgrade" then
    aptRunCommand flags true d e
  else if operation = "search" ∨ operation = "show" then
    if jsOrString packageName "" = "" then
      ({ success := false, error := some "Package name is required" }, false)
    else aptRunCommand flags false d e
  else
    ({ success := false
       error := some ("Unknown apt operation: " ++ operation ++
         ". Supported: install, remove, update, upgrade, search, show") },
     false)

/-- The informational result `NetworkTool.speedTest` returns when
`which speedtest-cli` fails: a successful `ToolResult`, not a failure. -/
def speedtestUnavailableResult : ToolResult :=
  { success := true
    output := some ("speedtest-cli not installed. Install with: sudo apt install speedtest-cli" ++
      "\n\nAlternative: Visit https://www.speedtest.net/ for manual testing") }

/-- `NetworkTool.execute` from `src/tools/network.ts`.  No operation is
gated behind confirmation.  `whichOk` is the outcome of the
`which speedtest-cli` availability pre-check used by `speedtest`. -/
def networkExecute (whichOk : Bool) (e : ExecOutcome) (operation : String)
    (host : Option String) : ToolResult :=
  if operation = "ping" then
    if jsOrString host "" = "" then { success := false, error := some "Host is required for ping" }
    else commandOutcomeResult "Network command failed: " e
  else if operation = "traceroute" then
    if jsOrString host "" = "" then { success := false, error := some "Host is required for traceroute" }
    else commandOutcomeResult "Network command failed: " e
  else if operation = "interfaces" ∨ operation = "connections" then
    commandOutcomeResult "Network command failed: " e
  else if operation = "dns" then
    if jsOrString host "" = "" then { success := false, error := some "Host is required for DNS lookup" }
    else commandOutcomeResult "Network command failed: " e
  else if operation = "speedtest" then
    if whichOk then commandOutcomeResult "Network command failed: " e
    else speedtestUnavailableResult
  else
    { success := false
      error := some ("Unknown network operation: " ++ operation ++
        ". Supported: ping, traceroute, interfaces, connections, dns, speedtest") }

/-- The fixed success output of `DiskTool.cleanupSuggestions`. -/
def diskCleanupOutput : String :=
  "Disk cleanup suggestions:\n" ++
  "Consider cleaning package cache: sudo apt autoclean && sudo apt autoremove\n" ++
  "Check for large log files: sudo find /var/log -type f -size +50M -exec ls -lh \x7b\x7d \\;\n" ++
  "Look for old kernels: dpkg --list | grep linux-image\n" ++
  "Check Docker if installed: docker system df\n" ++
  "Find duplicate packages: sudo apt list --installed | grep -o \"^[^/]*\" | sort | uniq -d"

/-- `DiskTool.execute` from `src/tools/disk.ts`: no confirmation gating;
`cleanup` returns a fixed informational success. -/
def diskExecute (e : ExecOutcome) (operation : String) : ToolResult :=
  if operation = "usage" ∨ operation = "free" ∨ operation = "du"
      ∨ operation = "large-files" then
    commandOutcomeResult "Disk command failed: " e
  else if operation = "cleanup" then
    { success := true, output := some diskCleanupOutput }
  else
    { success := false
      error := some ("Unknown disk operation: " ++ operation ++
        ". Supported: usage, free, du, large-files, cleanup") }

/-- The Docker execution phase of `CodeExecutionTool.runCode`; both
outcomes carry the structured `data` field. -/
def codeExecPhase (e : ExecOutcome) : ToolResult :=
  match e with
  | .ok stdout stderr =>
      let out := execOutput stdout stderr
      { success := true
        output := some (if out = "" then "Code executed successfully (no output)" else out)
        dataPresent := true }
  | .err m =>
      { success := false, error := some ("Code execution failed: " ++ m), dataPresent := true }

/-- `CodeExecutionTool.runCode` from `src/tools/code-execution.ts`:
validates code and language, checks Docker availability, consults the
confirmation gate unless a `bashCommands` or `allOperations` session flag is
set, then executes in a container.  The second component records whether
`requestConfirmation` was invoked. -/
def runCode (dockerAvailable : Bool) (flags : SessionFlags)
    (d : ConfirmationResult) (e : ExecOutcome) (code language : String) :
    ToolResult × Bool :=
  if code = "" then
    ({ success := false, error := some "Code is required" }, false)
  else if language = "" then
    ({ success := false, error := some "Language is required" }, false)
  else if !dockerAvailable then
    ({ success := false
       error := some "Docker is required for safe code execution but is not available. Please install Docker." },
     false)
  else if !flags.bashCommands && !flags.allOperations then
    if d.confirmed then
      (codeExecPhase e, true)
    else
      ({ success := false, error := some (jsOrString d.feedback "Code execution cancelled by user") }, true)
  else
    (codeExecPhase e, false)

/-- The `testInputs` table of `CodeExecutionTool.testCode`. -/
def codeTestInputs (language : String) : Option String :=
  if language = "javascript" then some "console.log(\"Hello from test!\");"
  else if language = "python" then some "print(\"Hello from test!\")"
  else if language = "bash" then some "echo \"Hello from test!\""
  else if language = "java" then
    some ("public class Test \x7b public static void main(String[] args) \x7b " ++
      "System.out.println(\"Hello from test!\"); \x7d \x7d")
  else none

/-- `CodeExecutionTool.testCode`: runs the per-language sample, falling back
to the supplied code when the language has no sample (`testInputs[l] || code`). -/
def testCode (dockerAvailable : Bool) (flags : SessionFlags)
    (d : ConfirmationResult) (e : ExecOutcome) (code language : String) :
    ToolResult × Bool :=
  runCode dockerAvailable flags d e (jsOrString (codeTestInputs language) code) language

/-- `CodeExecutionTool.execute`: dispatches `run` and `test`. -/
def codeExecutionExecute (dockerAvailable : Bool) (flags : SessionFlags)
    (d : ConfirmationResult) (e : ExecOutcome) (operation : String)
    (code language : String) : ToolResult × Bool :=
  if operation = "run" then
    runCode dockerAvailable flags d e code language
  else if operation = "test" then
    testCode dockerAvailable flags d e code language
  else
    ({ success := false
       error := some ("Unknown code execution operation: " ++ operation ++ ". Supported: run, test") },
     false)

/-! ## Conversation history and the TUI streaming consumer -/

/-- The discriminant of `ChatEntry.type`. -/
inductive EntryType where
  | user
  | assistant
  | toolCall
  | toolResult
deriving DecidableEq, Repr

/-- `ChatEntry` from the agent, as the TUI manipulates it: kind, text
content, streaming flag, the assistant's attached tool-call ids, the
tool-call id a `tool_call`/`tool_result` entry refers to, and the success of
an attached tool result (timestamps are irrelevant to the claims). -/
structure ChatEntry where
  etype : EntryType
  content : String
  isStreaming : Bool := false
  toolCalls : Option (List Nat) := none
  toolCallId : Option Nat := none
  toolResultSuccess : Option Bool := none
deriving DecidableEq, Repr

/-- One chunk of the agent's streamed event sequence as consumed by
`processUserMessage` in `src/tui/app.tsx`. -/
inductive StreamChunk where
  | content (s : String)
  | tokenCount (n : Nat)
  | toolCalls (ids : List Nat)
  | toolResult (id : Nat) (res : ToolResult)
  | done
deriving DecidableEq, Repr

/-- `ChatProvider.addEntry`: append to the history. -/
def addEntry (history : List ChatEntry) (entry : ChatEntry) : List ChatEntry :=
  history ++ [entry]

/-- `ChatProvider.updateLastEntry`: rewrite the most recent entry only
(no-op on an empty history). -/
def updateLastEntry (f : ChatEntry → ChatEntry) : List ChatEntry → List ChatEntry
  | [] => []
  | [a] => [f a]
  | a :: b :: rest => a :: updateLastEntry f (b :: rest)

/-- The state the `processUserMessage` loop threads: the chat history and
whether the local `streamingEntry` variable is non-null. -/
structure TuiState where
  history : List ChatEntry
  streamingActive : Bool
deriving DecidableEq, Repr

/-- The content of a `tool_result` entry:
`success ? output || "Success" : error || "Error occurred"`. -/
def toolResultText (r : ToolResult) : String :=
  if r.success then jsOrString r.output "Success" else jsOrString r.error "Error occurred"

/-- The fresh assistant entry created on the first content delta. -/
def mkStreamingAssistant (s : String) : ChatEntry :=
  { etype := .assistant, content := s, isStreaming := true }

/-- The `tool_call` placeholder entry appended for each requested call. -/
def mkToolCallEntry (id : Nat) : ChatEntry :=
  { etype := .toolCall, content := "Executing...", toolCallId := some id }

/-- One iteration of the `switch (chunk.type)` statement of
`processUserMessage` in `src/tui/app.tsx`, acting on the chat history and
the `streamingEntry` nullness flag. -/
def tuiStep (s : TuiState) (c : StreamChunk) : TuiState :=
  match c with
  | .content str =>
      if str = "" then s
      else if !s.streamingActive then
        { history := addEntry s.history (mkStreamingAssistant str), streamingActive := true }
      else
        { history := updateLastEntry
            (fun e => if e.isStreaming then { e with content := e.content ++ str } else e)
            s.history
          streamingActive := s.streamingActive }
  | .tokenCount _ => s
  | .toolCalls ids =>
      { history :=
          (s.history.map (fun e =>
            if e.isStreaming then { e with isStreaming := false, toolCalls := some ids } else e))
          ++ ids.map mkToolCallEntry
        streamingActive := false }
  | .toolResult id r =>
      { history := s.history.map (fun e =>
          if e.isStreaming then { e with isStreaming := false }
          else if e.etype = .toolCall ∧ e.toolCallId = some id then
            { e with etype := .toolResult, content := toolResultText r,
                     toolResultSuccess := some r.success }
          else e)
        streamingActive := false }
  | .done =>
      if s.streamingActive then
        { s with history := s.history.map (fun e =>
            if e.isStreaming then { e with isStreaming := false } else e) }
      else s

/-- Folding the streaming consumer over a chunk sequence. -/
def tuiRun (s : TuiState) (cs : List StreamChunk) : TuiState :=
  cs.foldl tuiStep s

/-- Which existing entry a chunk's history update is allowed to rewrite:
a content delta rewrites only the streaming-flagged most recent entry; a
tool-calls event finalizes the streaming entry; a tool-result event
finalizes the streaming entry or resolves the `tool_call` entry whose id
matches; `done` clears the streaming flag; token counts touch nothing. -/
def mayMutate (c : StreamChunk) (e : ChatEntry) (isLast : Bool) : Bool :=
  match c with
  | .content _ => isLast && e.isStreaming
  | .tokenCount _ => false
  | .toolCalls _ => e.isStreaming
  | .toolResult id _ =>
      e.isStreaming || (decide (e.etype = .toolCall) && decide (e.toolCallId = some id))
  | .done => e.isStreaming

/-- Concatenation of a list of strings in order. -/
def concatAll : List String → String
  | [] => ""
  | s :: rest => s ++ concatAll rest

/-! ## MCP tool naming (`src/commands/mcp.ts`, chat history view) -/

/-- JavaScript `String.prototype.replace` with a string pattern: replace the
first occurrence only, on character lists. -/
def listReplaceFirst : List Char → List Char → List Char → List Char
  | [], pat, repl => if pat.isEmpty then repl else []
  | c :: rest, pat, repl =>
      if pat.isPrefixOf (c :: rest) then repl ++ (c :: rest).drop pat.length
      else c :: listReplaceFirst rest pat repl

/-- JavaScript `s.replace(pat, repl)` (first occurrence) on strings. -/
def jsReplaceFirst (s pat repl : String) : String :=
  ⟨listReplaceFirst s.data pat.data repl.data⟩

/-- The display name computed by the `mcp list` command
(`src/commands/mcp.ts`): the catalog name with its `mcp__<server>__`
marker stripped. -/
def mcpDisplayName (serverName toolName : String) : String :=
  jsReplaceFirst toolName ("mcp__" ++ serverName ++ "__") ""

/-- Modelled from the spec: the MCP manager that merges discovered tools
into the global catalog is not among the provided sources; the name format
it produces is the one stripped by `mcp list` (`src/commands/mcp.ts`) and
parsed by `getToolActionName` in the chat history view: an `mcp__` marker,
the server name, a double underscore, the tool's base name. -/
def mcpCatalogName (serverName toolName : String) : String :=
  "mcp__" ++ serverName ++ "__" ++ toolName

/-- The naming convention as the specification words it: the server name and
the tool name joined by a double underscore, with no further marker. -/
def specCatalogName (serverName toolName : String) : String :=
  serverName ++ "__" ++ toolName

/-- `serverName.charAt(0).toUpperCase() + serverName.slice(1)`. -/
def capitalizeFirst (s : String) : String :=
  match s.data with
  | [] => ""
  | c :: rest => ⟨c.toUpper :: rest⟩

/-- JavaScript `s.startsWith(p)`, computed on the character lists. -/
def jsStartsWith (s p : String) : Bool :=
  p.data.isPrefixOf s.data

/-- JavaScript `s.split("__")` (leftmost, non-overlapping), on character
lists with a reversed accumulator for the current segment. -/
def splitUUAux : List Char → List Char → List (List Char)
  | [], acc => [acc.reverse]
  | '_' :: '_' :: rest, acc => acc.reverse :: splitUUAux rest []
  | c :: rest, acc => splitUUAux rest (c :: acc)

/-- JavaScript `toolName.split("__")`. -/
def jsSplitUU (s : String) : List String :=
  (splitUUAux s.data []).map (fun l => ⟨l⟩)

/-- JavaScript `parts.join("__")`. -/
def joinUU : List String → String
  | [] => ""
  | [s] => s
  | s :: rest => s ++ "__" ++ joinUU rest

/-- JavaScript `s.replace(/_/g, " ")`. -/
def underscoresToSpaces (s : String) : String :=
  ⟨s.data.map (fun c => if c = '_' then ' ' else c)⟩

/-- The `switch (toolName)` fallback of `getToolActionName`. -/
def builtinActionName (toolName : String) : String :=
  if toolName = "view_file" then "Read"
  else if toolName = "str_replace_editor" then "Update"
  else if toolName = "create_file" then "Create"
  else if toolName = "bash" then "Bash"
  else if toolName = "search" then "Search"
  else if toolName = "create_todo_list" then "Created Todo"
  else if toolName = "update_todo_list" then "Updated Todo"
  else "Tool"

/-- `getToolActionName` from the chat history view: recognizes
`mcp__<server>__<tool>` names, otherwise maps built-in tool names to their
display labels, defaulting to `Tool`. -/
def getToolActionName (toolName : String) : String :=
  if jsStartsWith toolName "mcp__" then
    let parts := jsSplitUU toolName
    if 3 ≤ parts.length then
      capitalizeFirst (parts.getD 1 "") ++ "(" ++
        underscoresToSpaces (joinUU (parts.drop 2)) ++ ")"
    else builtinActionName toolName
  else builtinActionName toolName

/-! ## Headless entry points and round bounding (`src/index.ts`) -/

/-- `confirmationService.setSessionFlag("allOperations", true)`, executed by
both `processPromptHeadless` and `handleCommitAndPushHeadless` immediately
after constructing the agent and before any prompt is processed. -/
def headlessFlags (f : SessionFlags) : SessionFlags :=
  { f with allOperations := true }

/-- The yargs default of the `--max-tool-rounds` option. -/
def maxToolRoundsDefault : Nat := 400

/-- `argv.maxToolRounds || 400`: yargs fills the default when the flag is
absent, and the JavaScript `||` additionally maps an explicit `0` to 400. -/
def resolveMaxToolRounds (cli : Option Nat) : Nat :=
  let v := cli.getD maxToolRoundsDefault
  if v = 0 then maxToolRoundsDefault else v

/-- A model response in one round: either final assistant text or a batch of
tool calls to execute and feed back. -/
inductive ModelResponse where
  | final (text : String)
  | toolUse (calls : List Nat)
deriving DecidableEq, Repr

/-- How an orchestrated conversation ended. -/
inductive LoopOutcome where
  | done
  | roundLimit
deriving DecidableEq, Repr

/-- Modelled from the spec: the agent orchestration loop (`GrokAgent`) is not
among the provided sources.  Per the spec, a round counter increments each
time tool results are fed back for a new model call, and exceeding the
configured maximum forces termination with a "round limit" outcome; entries
are only ever appended.  `fuel` is the number of model calls still allowed. -/
def orchGo (responses : Nat → ModelResponse) : Nat → Nat → List String →
    List String × LoopOutcome
  | 0, _, entries => (entries, .roundLimit)
  | fuel + 1, round, entries =>
      match responses round with
      | .final t => (entries ++ [t], .done)
      | .toolUse calls =>
          orchGo responses fuel (round + 1)
            (entries ++ calls.map (fun c => "tool_result " ++ toString c))

/-- Modelled from the spec: run the orchestration loop with at most
`maxRounds` tool rounds (hence `maxRounds + 1` model calls). -/
def orchestrate (maxRounds : Nat) (responses : Nat → ModelResponse)
    (entries : List String) : List String × LoopOutcome :=
  orchGo responses (maxRounds + 1) 0 entries

/-! ## The confirmation gate (modelled from the spec) -/

/-- `PendingConfirmation`: the operation label, target, optional preview
content and the category used for session-flag matching. -/
structure PendingConfirmation where
  operation : String
  filename : String
  content : Option String := none
  category : String
deriving DecidableEq, Repr

/-- Modelled from the spec: whether a session flag already covers an
operation's category — the specific category flag or the global
`allOperations` flag (the category the built-in tools pass is `"bash"`). -/
def coveredBy (flags : SessionFlags) (category : String) : Bool :=
  flags.allOperations ||
    (category == "bash" && flags.bashCommands) ||
    (category == "file" && flags.fileOperations)

/-- Modelled from the spec: `ApprovedRemember` sets the decided category's
session flag for the remainder of the run. -/
def setCategoryFlag (flags : SessionFlags) (category : String) : SessionFlags :=
  if category == "bash" then { flags with bashCommands := true }
  else if category == "file" then { flags with fileOperations := true }
  else { flags with allOperations := true }

/-- Modelled from the spec: the `ConfirmationService` state.  `shown` is the
list of prompts currently surfaced to the human, `waiting` the suspended
requests that arrived while one was pending. -/
structure GateState where
  shown : List PendingConfirmation
  waiting : List PendingConfirmation
  flags : SessionFlags
deriving DecidableEq, Repr

/-- An event at the confirmation gate: a `request` from a tool, or a human
decision on the prompt currently shown. -/
inductive GateEvent where
  | request (p : PendingConfirmation)
  | decide (approved remember : Bool)
deriving DecidableEq, Repr

/-- Modelled from the spec: one gate transition.  A covered request resolves
immediately without surfacing anything; an uncovered request is surfaced if
nothing is pending and suspended otherwise; a decision destroys the pending
prompt, applies `ApprovedRemember`, and surfaces the next waiting request. -/
def gateStep (s : GateState) (ev : GateEvent) : GateState :=
  match ev with
  | .request p =>
      if coveredBy s.flags p.category then s
      else if s.shown.isEmpty then { s with shown := [p] }
      else { s with waiting := s.waiting ++ [p] }
  | .decide approved remember =>
      match s.shown with
      | [] => s
      | p :: _ =>
          { shown := s.waiting.take 1
            waiting := s.waiting.drop 1
            flags := if approved && remember then setCategoryFlag s.flags p.category else s.flags }

/-- The gate state reached from a fresh session after a sequence of events. -/
def gateRun (events : List GateEvent) : GateState :=
  events.foldl gateStep { shown := [], waiting := [], flags := ⟨false, false, false⟩ }

/-! ## Helper lemmas -/

/-- A string with a non-empty left part is non-empty. -/
theorem append_ne_empty_of_left (s t : String) (h : s ≠ "") : s ++ t ≠ "" := by
  intro heq
  apply h
  have hl := congrArg String.length heq
  rw [String.length_append] at hl
  have hz : s.length = 0 := by
    have : ("" : String).length = 0 := rfl
    omega
  cases s with
  | mk data =>
    cases data with
    | nil => rfl
    | cons c cs => simp [String.length] at hz

/-- `jsOrString` with a non-empty default never yields the empty string. -/
theorem jsOrString_ne_empty (x : Option String) (d : String) (h : d ≠ "") :
    jsOrString x d ≠ "" := by
  unfold jsOrString
  cases x with
  | none => exact h
  | some s =>
    by_cases hs : s = "" <;> simp [hs, h]

/-- With a `bashCommands` or `allOperations` session flag set, the shared
gated runner skips the confirmation gate and just executes. -/
theorem gatedRunCommand_skip {flags : SessionFlags}
    (h : flags.bashCommands = true ∨ flags.allOperations = true)
    (cancelText failText : String) (req : Bool) (d : ConfirmationResult)
    (e : ExecOutcome) :
    gatedRunCommand cancelText failText flags req d e =
      (commandOutcomeResult failText e, false) := by
  rcases h with h | h <;> simp [gatedRunCommand, h]

/-- With a covering session flag, `runCode` never consults the gate. -/
theorem runCode_gate_skip {flags : SessionFlags}
    (h : flags.bashCommands = true ∨ flags.allOperations = true)
    (da : Bool) (d : ConfirmationResult) (e : ExecOutcome) (c l : String) :
    (runCode da flags d e c l).2 = false := by
  rcases h with h | h <;> unfold runCode <;> simp [h] <;> split_ifs <;> rfl

/-- With a covering session flag, `runCode` ignores the human decision. -/
theorem runCode_decision_independent {flags : SessionFlags}
    (h : flags.bashCommands = true ∨ flags.allOperations = true)
    (da : Bool) (d d' : ConfirmationResult) (e : ExecOutcome) (c l : String) :
    runCode da flags d e c l = runCode da flags d' e c l := by
  rcases h with h | h <;> unfold runCode <;> simp [h]

/-- With a covering session flag, `SystemctlTool.execute` never consults the
gate. -/
theorem systemctlExecute_gate_skip {flags : SessionFlags}
    (h : flags.bashCommands = true ∨ flags.allOperations = true)
    (d : ConfirmationResult) (e : ExecOutcome) (op name : String) :
    (systemctlExecute flags d e op name).2 = false := by
  unfold systemctlExecute systemctlRunCommand
  simp only [gatedRunCommand_skip h]
  split_ifs <;> rfl

/-- With a covering session flag, `SystemctlTool.execute` ignores the human
decision. -/
theorem systemctlExecute_decision_independent {flags : SessionFlags}
    (h : flags.bashCommands = true ∨ flags.allOperations = true)
    (d d' : ConfirmationResult) (e : ExecOutcome) (op name : String) :
    systemctlExecute flags d e op name = systemctlExecute flags d' e op name := by
  unfold systemctlExecute systemctlRunCommand
  simp only [gatedRunCommand_skip h]

/-- With a covering session flag, `AptTool.execute` never consults the gate. -/
theorem aptExecute_gate_skip {flags : SessionFlags}
    (h : flags.bashCommands = true ∨ flags.allOperations = true)
    (d : ConfirmationResult) (e : ExecOutcome) (op : String) (pkg : Option String) :
    (aptExecute flags d e op pkg).2 = false := by
  unfold aptExecute aptRunCommand
  simp only [gatedRunCommand_skip h]
  split_ifs <;> rfl

/-- With a covering session flag, `AptTool.execute` ignores the human
decision. -/
theorem aptExecute_decision_independent {flags : SessionFlags}
    (h : flags.bashCommands = true ∨ flags.allOperations = true)
    (d d' : ConfirmationResult) (e : ExecOutcome) (op : String) (pkg : Option String) :
    aptExecute flags d e op pkg = aptExecute flags d' e op pkg := by
  unfold aptExecute aptRunCommand
  simp only [gatedRunCommand_skip h]

/-- With a covering session flag, `CodeExecutionTool.execute` never consults
the gate. -/
theorem codeExecutionExecute_gate_skip {flags : SessionFlags}
    (h : flags.bashCommands = true ∨ flags.allOperations = true)
    (da : Bool) (d : ConfirmationResult) (e : ExecOutcome) (op code lang : String) :
    (codeExecutionExecute da flags d e op code lang).2 = false := by
  unfold codeExecutionExecute testCode
  split
  · exact runCode_gate_skip h da d e code lang
  · split
    · exact runCode_gate_skip h da d e _ lang
    · rfl

/-- With a covering session flag, `CodeExecutionTool.execute` ignores the
human decision. -/
theorem codeExecutionExecute_decision_independent {flags : SessionFlags}
    (h : flags.bashCommands = true ∨ flags.allOperations = true)
    (da : Bool) (d d' : ConfirmationResult) (e : ExecOutcome) (op code lang : String) :
    codeExecutionExecute da flags d e op code lang =
      codeExecutionExecute da flags d' e op code lang := by
  unfold codeExecutionExecute testCode
  split
  · exact runCode_decision_independent h da d d' e code lang
  · split
    · exact runCode_decision_independent h da d d' e _ lang
    · rfl

/-- C1: with the session flag for the `bashCommands` category or the global
`allOperations` flag already set when a mutating systemctl, apt or
code-execution operation is requested, the operation proceeds without ever
invoking `requestConfirmation` (the gate-invoked component is `false`) and
its outcome does not depend on any human decision: it is exactly the
outcome of executing the operation, i.e. it resolves as approved. -/
theorem mutating_ops_skip_gate_when_flagged (flags : SessionFlags)
    (h : flags.bashCommands = true ∨ flags.allOperations = true)
    (d d' : ConfirmationResult) (e : ExecOutcome) (sop aop cop name : String)
    (pkg : Option String) (da : Bool) (code lang : String) :
    ((systemctlExecute flags d e sop name).2 = false ∧
      systemctlExecute flags d e sop name = systemctlExecute flags d' e sop name) ∧
    ((aptExecute flags d e aop pkg).2 = false ∧
      aptExecute flags d e aop pkg = aptExecute flags d' e aop pkg) ∧
    ((codeExecutionExecute da flags d e cop code lang).2 = false ∧
      codeExecutionExecute da flags d e cop code lang =
        codeExecutionExecute da flags d' e cop code lang) :=
  ⟨⟨systemctlExecute_gate_skip h d e sop name,
    systemctlExecute_decision_independent h d d' e sop name⟩,
   ⟨aptExecute_gate_skip h d e aop pkg,
    aptExecute_decision_independent h d d' e aop pkg⟩,
   codeExecutionExecute_gate_skip h da d e cop code lang,
   codeExecutionExecute_decision_independent h da d d' e cop code lang⟩

/-- Witness for C1 at concrete inputs: flags with `bashCommands` set, a
rejecting decision, a systemctl start of nginx. -/
theorem mutating_ops_skip_gate_when_flagged_witness :
    ((⟨false, true, false⟩ : SessionFlags).bashCommands = true ∨
      (⟨false, true, false⟩ : SessionFlags).allOperations = true) ∧
    (((systemctlExecute ⟨false, true, false⟩ ⟨false, some "no"⟩ (.ok "active" "") "start" "nginx").2 = false ∧
      systemctlExecute ⟨false, true, false⟩ ⟨false, some "no"⟩ (.ok "active" "") "start" "nginx" =
        systemctlExecute ⟨false, true, false⟩ ⟨true, none⟩ (.ok "active" "") "start" "nginx") ∧
    ((aptExecute ⟨false, true, false⟩ ⟨false, some "no"⟩ (.ok "active" "") "install" (some "jq")).2 = false ∧
      aptExecute ⟨false, true, false⟩ ⟨false, some "no"⟩ (.ok "active" "") "install" (some "jq") =
        aptExecute ⟨false, true, false⟩ ⟨true, none⟩ (.ok "active" "") "install" (some "jq")) ∧
    ((codeExecutionExecute true ⟨false, true, false⟩ ⟨false, some "no"⟩ (.ok "active" "") "run" "print(1)" "python").2 = false ∧
      codeExecutionExecute true ⟨false, true, false⟩ ⟨false, some "no"⟩ (.ok "active" "") "run" "print(1)" "python" =
        codeExecutionExecute true ⟨false, true, false⟩ ⟨true, none⟩ (.ok "active" "") "run" "print(1)" "python")) :=
  ⟨Or.inl rfl,
   mutating_ops_skip_gate_when_flagged ⟨false, true, false⟩ (Or.inl rfl)
     ⟨false, some "no"⟩ ⟨true, none⟩ (.ok "active" "") "start" "install" "run" "nginx"
     (some "jq") true "print(1)" "python"⟩

/-- C2 counterexample: the human rejects a mutating systemctl start with the
feedback string `""`.  JavaScript `confirmationResult.feedback || default`
treats the empty string as falsy, so the returned failure carries the
default cancellation message, not the feedback verbatim. -/
theorem rejection_empty_feedback_not_verbatim :
    (systemctlExecute ⟨false, false, false⟩ ⟨false, some ""⟩ (.ok "" "") "start" "nginx").1.error
        = some "Systemctl command cancelled by user" ∧
    (systemctlExecute ⟨false, false, false⟩ ⟨false, some ""⟩ (.ok "" "") "start" "nginx").1.error
        ≠ some "" := by
  constructor
  · rfl
  · decide

/-- C2 as amended: for every NON-EMPTY feedback string `f`, a rejection of a
mutating systemctl, apt or code-execution operation skips execution and
returns a failure `ToolResult` whose error is exactly `f`; when the feedback
is absent or empty, a default per-tool cancellation message is used instead. -/
theorem rejection_feedback_verbatim (flags : SessionFlags)
    (hb : flags.bashCommands = false) (ha : flags.allOperations = false)
    (f : String) (hf : f ≠ "") (e : ExecOutcome)
    (sop : String) (hsop : sop = "start" ∨ sop = "stop" ∨ sop = "restart"
      ∨ sop = "enable" ∨ sop = "disable")
    (aop : String) (haop : aop = "install" ∨ aop = "remove" ∨ aop = "update"
      ∨ aop = "upgrade")
    (name pkg code lang : String) (hname : name ≠ "") (hpkg : pkg ≠ "")
    (hcode : code ≠ "") (hlang : lang ≠ "") :
    systemctlExecute flags ⟨false, some f⟩ e sop name
        = ({ success := false, error := some f }, true) ∧
    aptExecute flags ⟨false, some f⟩ e aop (some pkg)
        = ({ success := false, error := some f }, true) ∧
    codeExecutionExecute true flags ⟨false, some f⟩ e "run" code lang
        = ({ success := false, error := some f }, true) ∧
    codeExecutionExecute true flags ⟨false, some f⟩ e "test" code lang
        = ({ success := false, error := some f }, true) := by
  have htest : jsOrString (codeTestInputs lang) code ≠ "" := by
    unfold codeTestInputs jsOrString
    split_ifs <;> simp_all
  have hjs : ∀ d₀ : String, jsOrString (some f) d₀ = f := by
    intro d₀
    simp [jsOrString, hf]
  refine ⟨?_, ?_, ?_, ?_⟩
  · unfold systemctlExecute systemctlRunCommand gatedRunCommand
    rcases hsop with h | h | h | h | h <;> subst h <;>
      simp [hb, ha, hname, hjs]
  · unfold aptExecute aptRunCommand gatedRunCommand
    rcases haop with h | h | h | h <;> subst h <;>
      simp [hb, ha, hpkg, hf, jsOrString]
  · unfold codeExecutionExecute runCode
    simp [hb, ha, hcode, hlang, hjs]
  · unfold codeExecutionExecute testCode runCode
    simp [hb, ha, htest, hlang, hjs]

/-- Witness for C2 as amended, at feedback "not now" on concrete operations. -/
theorem rejection_feedback_verbatim_witness :
    ((⟨false, false, false⟩ : SessionFlags).bashCommands = false ∧
      (⟨false, false, false⟩ : SessionFlags).allOperations = false ∧
      ("not now" : String) ≠ "" ∧
      (("stop" : String) = "start" ∨ ("stop" : String) = "stop" ∨ ("stop" : String) = "restart"
        ∨ ("stop" : String) = "enable" ∨ ("stop" : String) = "disable") ∧
      (("remove" : String) = "install" ∨ ("remove" : String) = "remove"
        ∨ ("remove" : String) = "update" ∨ ("remove" : String) = "upgrade") ∧
      ("nginx" : String) ≠ "" ∧ ("jq" : String) ≠ "" ∧
      ("print(1)" : String) ≠ "" ∧ ("python" : String) ≠ "") ∧
    (systemctlExecute ⟨false, false, false⟩ ⟨false, some "not now"⟩ (.ok "" "") "stop" "nginx"
        = ({ success := false, error := some "not now" }, true) ∧
      aptExecute ⟨false, false, false⟩ ⟨false, some "not now"⟩ (.ok "" "") "remove" (some "jq")
        = ({ success := false, error := some "not now" }, true) ∧
      codeExecutionExecute true ⟨false, false, false⟩ ⟨false, some "not now"⟩ (.ok "" "") "run" "print(1)" "python"
        = ({ success := false, error := some "not now" }, true) ∧
      codeExecutionExecute true ⟨false, false, false⟩ ⟨false, some "not now"⟩ (.ok "" "") "test" "print(1)" "python"
        = ({ success := false, error := some "not now" }, true)) :=
  ⟨⟨rfl, rfl, by decide, Or.inr (Or.inl rfl), Or.inr (Or.inl rfl),
    by decide, by decide, by decide, by decide⟩,
   rejection_feedback_verbatim ⟨false, false, false⟩ rfl rfl "not now" (by decide)
     (.ok "" "") "stop" (Or.inr (Or.inl rfl)) "remove" (Or.inr (Or.inl rfl))
     "nginx" "jq" "print(1)" "python" (by decide) (by decide) (by decide) (by decide)⟩

/-- A failure result with a present, non-empty, human-readable error text. -/
def failsNonempty (r : ToolResult) : Prop :=
  r.success = false ∧ r.error ≠ none ∧ r.error.getD "" ≠ ""

/-- A faulting command under the shared gated runner always becomes a
failure result with a non-empty error. -/
theorem gatedRunCommand_fault (cancelText failText : String) (flags : SessionFlags)
    (req : Bool) (d : ConfirmationResult) (m : String)
    (hc : cancelText ≠ "") (hfx : failText ≠ "") :
    failsNonempty (gatedRunCommand cancelText failText flags req d (.err m)).1 := by
  unfold gatedRunCommand commandOutcomeResult failsNonempty
  split_ifs
  · exact ⟨rfl, by simp, append_ne_empty_of_left _ _ hfx⟩
  · exact ⟨rfl, by simp, jsOrString_ne_empty _ _ hc⟩
  · exact ⟨rfl, by simp, append_ne_empty_of_left _ _ hfx⟩

/-- A faulting systemctl command always becomes a non-empty failure. -/
theorem systemctlExecute_fault (flags : SessionFlags) (d : ConfirmationResult)
    (m op name : String) :
    failsNonempty (systemctlExecute flags d (.err m) op name).1 := by
  have hg : ∀ req : Bool, failsNonempty (systemctlRunCommand flags req d (.err m)).1 :=
    fun req => gatedRunCommand_fault _ _ _ _ _ _ (by decide) (by decide)
  have hgs : ∀ req : Bool, (systemctlRunCommand flags req d (.err m)).1.success = false :=
    fun req => (hg req).1
  unfold systemctlExecute
  split_ifs
  · exact ⟨rfl, by simp, by decide⟩
  · exact hg true
  · exact hg false
  · simpa [hgs] using hg false
  · exact ⟨rfl, by simp, append_ne_empty_of_left _ _ (append_ne_empty_of_left _ _ (by decide))⟩

/-- A faulting apt command always becomes a non-empty failure. -/
theorem aptExecute_fault (flags : SessionFlags) (d : ConfirmationResult)
    (m op : String) (pkg : Option String) :
    failsNonempty (aptExecute flags d (.err m) op pkg).1 := by
  have hg : ∀ req : Bool, failsNonempty (aptRunCommand flags req d (.err m)).1 :=
    fun req => gatedRunCommand_fault _ _ _ _ _ _ (by decide) (by decide)
  unfold aptExecute
  split_ifs
  · exact ⟨rfl, by simp, by decide⟩
  · exact hg true
  · exact hg true
  · exact ⟨rfl, by simp, by decide⟩
  · exact hg false
  · exact ⟨rfl, by simp, append_ne_empty_of_left _ _ (append_ne_empty_of_left _ _ (by decide))⟩

/-- A faulting disk command (on the operations that run one) always becomes
a non-empty failure. -/
theorem diskExecute_fault (m op : String) (hcl : op ≠ "cleanup") :
    failsNonempty (diskExecute (.err m) op) := by
  unfold diskExecute commandOutcomeResult
  split_ifs with h1
  · exact ⟨rfl, by simp, append_ne_empty_of_left _ _ (by decide)⟩
  · exact ⟨rfl, by simp, append_ne_empty_of_left _ _ (append_ne_empty_of_left _ _ (by decide))⟩

/-- A faulting network command on any operation other than `speedtest`
always becomes a non-empty failure. -/
theorem networkExecute_fault (m op : String) (host : Option String) (whichOk : Bool)
    (hop : op ≠ "speedtest") :
    failsNonempty (networkExecute whichOk (.err m) op host) := by
  unfold networkExecute commandOutcomeResult
  split_ifs
  all_goals first
    | exact ⟨rfl, by simp, by decide⟩
    | exact ⟨rfl, by simp, append_ne_empty_of_left _ _ (by decide)⟩
    | exact ⟨rfl, by simp, append_ne_empty_of_left _ _ (append_ne_empty_of_left _ _ (by decide))⟩

/-- A faulting `speedtest` whose availability pre-check succeeded becomes a
non-empty failure. -/
theorem networkExecute_speedtest_fault (m : String) (host : Option String) :
    failsNonempty (networkExecute true (.err m) "speedtest" host) := by
  have h : networkExecute true (.err m) "speedtest" host
      = { success := false, error := some ("Network command failed: " ++ m) } := by
    simp [networkExecute, commandOutcomeResult]
  rw [h]
  exact ⟨rfl, by simp, append_ne_empty_of_left _ _ (by decide)⟩

/-- A faulting code-execution operation always becomes a non-empty failure. -/
theorem codeExecutionExecute_fault (da : Bool) (flags : SessionFlags)
    (d : ConfirmationResult) (m op code lang : String) :
    failsNonempty (codeExecutionExecute da flags d (.err m) op code lang).1 := by
  have hr : ∀ c l : String, failsNonempty (runCode da flags d (.err m) c l).1 := by
    intro c l
    unfold runCode codeExecPhase
    split_ifs
    · exact ⟨rfl, by simp, by decide⟩
    · exact ⟨rfl, by simp, by decide⟩
    · exact ⟨rfl, by simp, by decide⟩
    · exact ⟨rfl, by simp, append_ne_empty_of_left _ _ (by decide)⟩
    · exact ⟨rfl, by simp, jsOrString_ne_empty _ _ (by decide)⟩
    · exact ⟨rfl, by simp, append_ne_empty_of_left _ _ (by decide)⟩
  unfold codeExecutionExecute testCode
  split_ifs
  · exact hr code lang
  · exact hr _ lang
  · exact ⟨rfl, by simp, append_ne_empty_of_left _ _ (append_ne_empty_of_left _ _ (by decide))⟩

/-- C3 counterexample: when the `which speedtest-cli` availability check of
the network tool's `speedtest` operation fails (a command failure in the
underlying handler), `execute` returns a result whose success field is
`true` — not the `success:false` the claim requires for every fault. -/
theorem speedtest_fault_reports_success :
    networkExecute false (.err "Command failed: which speedtest-cli") "speedtest" none
        = speedtestUnavailableResult ∧
    (networkExecute false (.err "Command failed: which speedtest-cli") "speedtest" none).success
        = true ∧
    (networkExecute false (.err "Command failed: which speedtest-cli") "speedtest" none).success
        ≠ false := by
  refine ⟨rfl, rfl, by decide⟩

/-- C3 as amended: every handler fault is caught and converted to a normal
`ToolResult` with `success:false` and a non-empty human-readable error —
except the `speedtest` availability pre-check, where a failing
`which speedtest-cli` yields a successful informational result; in every
case `execute` returns normally (the embedding is a total function), so the
orchestration round always completes. -/
theorem handler_faults_converted (m : String) (flags : SessionFlags)
    (d : ConfirmationResult) (op name code lang : String)
    (pkg host : Option String) (da whichOk : Bool)
    (hop : op ≠ "speedtest") (hcl : op ≠ "cleanup") :
    failsNonempty (systemctlExecute flags d (.err m) op name).1 ∧
    failsNonempty (aptExecute flags d (.err m) op pkg).1 ∧
    failsNonempty (diskExecute (.err m) op) ∧
    failsNonempty (networkExecute whichOk (.err m) op host) ∧
    failsNonempty (networkExecute true (.err m) "speedtest" host) ∧
    networkExecute false (.err m) "speedtest" host = speedtestUnavailableResult ∧
    failsNonempty (codeExecutionExecute da flags d (.err m) op code lang).1 :=
  ⟨systemctlExecute_fault flags d m op name,
   aptExecute_fault flags d m op pkg,
   diskExecute_fault m op hcl,
   networkExecute_fault m op host whichOk hop,
   networkExecute_speedtest_fault m host,
   by simp [networkExecute],
   codeExecutionExecute_fault da flags d m op code lang⟩

/-- Witness for C3 as amended, at a concrete fault on concrete operations. -/
theorem handler_faults_converted_witness :
    (("usage" : String) ≠ "speedtest" ∧ ("usage" : String) ≠ "cleanup") ∧
    (failsNonempty (systemctlExecute ⟨false, false, false⟩ ⟨true, none⟩ (.err "boom") "usage" "nginx").1 ∧
      failsNonempty (aptExecute ⟨false, false, false⟩ ⟨true, none⟩ (.err "boom") "usage" none).1 ∧
      failsNonempty (diskExecute (.err "boom") "usage") ∧
      failsNonempty (networkExecute true (.err "boom") "usage" none) ∧
      failsNonempty (networkExecute true (.err "boom") "speedtest" none) ∧
      networkExecute false (.err "boom") "speedtest" none = speedtestUnavailableResult ∧
      failsNonempty (codeExecutionExecute true ⟨false, false, false⟩ ⟨true, none⟩ (.err "boom") "usage" "print(1)" "python").1) :=
  ⟨⟨by decide, by decide⟩,
   handler_faults_converted "boom" ⟨false, false, false⟩ ⟨true, none⟩
     "usage" "nginx" "print(1)" "python" none none true true (by decide) (by decide)⟩

/-- Well-formedness of a `ToolResult` as the spec's invariant words it:
success implies a present non-empty output and no error; failure implies a
present non-empty error. -/
def toolResultOk (r : ToolResult) : Prop :=
  (r.success = true → r.output ≠ none ∧ r.output.getD "" ≠ "" ∧ r.error = none) ∧
  (r.success = false → r.error ≠ none ∧ r.error.getD "" ≠ "")

/-- The shared command-outcome conversion always produces a well-formed
result when its failure text is non-empty. -/
theorem toolResultOk_commandOutcomeResult (failText : String) (e : ExecOutcome)
    (hfx : failText ≠ "") : toolResultOk (commandOutcomeResult failText e) := by
  unfold commandOutcomeResult toolResultOk
  cases e with
  | ok stdout stderr =>
    refine ⟨fun _ => ⟨by simp, ?_, rfl⟩, fun h => by simp at h⟩
    simp only [Option.getD_some]
    split_ifs with h
    · decide
    · exact h
  | err m =>
    exact ⟨fun h => by simp at h, fun _ => ⟨by simp, append_ne_empty_of_left _ _ hfx⟩⟩

/-- The shared gated runner always produces a well-formed result when its
texts are non-empty. -/
theorem toolResultOk_gatedRunCommand (cancelText failText : String)
    (flags : SessionFlags) (req : Bool) (d : ConfirmationResult) (e : ExecOutcome)
    (hc : cancelText ≠ "") (hfx : failText ≠ "") :
    toolResultOk (gatedRunCommand cancelText failText flags req d e).1 := by
  unfold gatedRunCommand
  split_ifs
  · exact toolResultOk_commandOutcomeResult failText e hfx
  · exact ⟨fun h => by simp at h, fun _ => ⟨by simp, jsOrString_ne_empty _ _ hc⟩⟩
  · exact toolResultOk_commandOutcomeResult failText e hfx

/-- C5: every `ToolResult` returned by the systemctl, network and disk
tools' `execute` satisfies the invariant: on success the output field is
present and non-empty (a placeholder text substitutes for empty command
output) and the error field is absent; on failure the error field is
present and non-empty. -/
theorem builtin_results_wellformed (flags : SessionFlags) (d : ConfirmationResult)
    (e : ExecOutcome) (op name : String) (host : Option String) (whichOk : Bool) :
    toolResultOk (systemctlExecute flags d e op name).1 ∧
    toolResultOk (networkExecute whichOk e op host) ∧
    toolResultOk (diskExecute e op) := by
  have hg : ∀ req : Bool, toolResultOk (systemctlRunCommand flags req d e).1 :=
    fun req => toolResultOk_gatedRunCommand _ _ _ _ _ _ (by decide) (by decide)
  refine ⟨?_, ?_, ?_⟩
  · unfold systemctlExecute
    split_ifs with h1 h2 h3 h4
    · exact ⟨fun h => by simp at h, fun _ => ⟨by simp, by decide⟩⟩
    · exact hg true
    · exact hg false
    · -- `is-active`/`is-enabled`: on a successful underlying run the output
      -- is rewritten to a non-empty sentence and the error stays absent.
      cases hs : (systemctlRunCommand flags false d e).1.success with
      | false => simpa [hs] using hg false
      | true =>
        simp only [hs, if_true]
        refine ⟨fun _ => ⟨by simp, append_ne_empty_of_left _ _
          (append_ne_empty_of_left _ _ (append_ne_empty_of_left _ _ (by decide))),
          ((hg false).1 hs).2.2⟩, fun h => by simp at h⟩
    · exact ⟨fun h => by simp at h, fun _ => ⟨by simp,
        append_ne_empty_of_left _ _ (append_ne_empty_of_left _ _ (by decide))⟩⟩
  · unfold networkExecute
    split_ifs
    all_goals first
      | exact toolResultOk_commandOutcomeResult _ _ (by decide)
      | exact ⟨fun h => by simp at h, fun _ => ⟨by simp, by decide⟩⟩
      | exact ⟨fun _ => ⟨by simp [speedtestUnavailableResult], by decide, rfl⟩,
          fun h => by simp [speedtestUnavailableResult] at h⟩
      | exact ⟨fun h => by simp at h, fun _ => ⟨by simp,
          append_ne_empty_of_left _ _ (append_ne_empty_of_left _ _ (by decide))⟩⟩
  · unfold diskExecute
    split_ifs
    all_goals first
      | exact toolResultOk_commandOutcomeResult _ _ (by decide)
      | exact ⟨fun _ => ⟨by simp, by decide, rfl⟩, fun h => by simp at h⟩
      | exact ⟨fun h => by simp at h, fun _ => ⟨by simp,
          append_ne_empty_of_left _ _ (append_ne_empty_of_left _ _ (by decide))⟩⟩

/-- C10: both headless entry points (`processPromptHeadless` and
`handleCommitAndPushHeadless` in `src/index.ts`) set the global
`allOperations` session flag to true immediately after constructing the
agent and before any prompt is processed; under the resulting flags no
gated tool invocation ever consults `requestConfirmation`, its outcome is
decision-independent (auto-approved), and the modelled gate reports every
category as covered. -/
theorem headless_runs_auto_approve (f : SessionFlags) (d d' : ConfirmationResult)
    (e : ExecOutcome) (sop aop cop name : String) (pkg : Option String)
    (da : Bool) (code lang : String) (cat : String) :
    (headlessFlags f).allOperations = true ∧
    ((systemctlExecute (headlessFlags f) d e sop name).2 = false ∧
      systemctlExecute (headlessFlags f) d e sop name
        = systemctlExecute (headlessFlags f) d' e sop name) ∧
    ((aptExecute (headlessFlags f) d e aop pkg).2 = false ∧
      aptExecute (headlessFlags f) d e aop pkg
        = aptExecute (headlessFlags f) d' e aop pkg) ∧
    ((codeExecutionExecute da (headlessFlags f) d e cop code lang).2 = false ∧
      codeExecutionExecute da (headlessFlags f) d e cop code lang
        = codeExecutionExecute da (headlessFlags f) d' e cop code lang) ∧
    coveredBy (headlessFlags f) cat = true := by
  have h : (headlessFlags f).bashCommands = true ∨ (headlessFlags f).allOperations = true :=
    Or.inr rfl
  exact ⟨rfl,
    ⟨systemctlExecute_gate_skip h d e sop name,
      systemctlExecute_decision_independent h d d' e sop name⟩,
    ⟨aptExecute_gate_skip h d e aop pkg,
      aptExecute_decision_independent h d d' e aop pkg⟩,
    ⟨codeExecutionExecute_gate_skip h da d e cop code lang,
      codeExecutionExecute_decision_independent h da d d' e cop code lang⟩,
    by simp [coveredBy, headlessFlags]⟩

/-- A list is a `isPrefixOf`-prefix of itself followed by anything. -/
theorem isPrefixOf_append_self (l t : List Char) : l.isPrefixOf (l ++ t) = true := by
  induction l with
  | nil => simp [List.isPrefixOf]
  | cons c cs ih => simp [List.isPrefixOf, ih]

/-- Replacing the first occurrence of a pattern that sits at the front. -/
theorem listReplaceFirst_front (pat t repl : List Char) :
    listReplaceFirst (pat ++ t) pat repl = repl ++ t := by
  cases pat with
  | nil =>
    cases t with
    | nil => simp [listReplaceFirst]
    | cons c cs => simp [listReplaceFirst, List.isPrefixOf]
  | cons p ps =>
    show listReplaceFirst (p :: (ps ++ t)) (p :: ps) repl = repl ++ t
    have hpre : (p :: ps).isPrefixOf (p :: (ps ++ t)) = true := by
      simp [List.isPrefixOf, isPrefixOf_append_self]
    unfold listReplaceFirst
    simp [hpre, List.drop_left]

/-- `mcp list` recovers the base tool name from a catalog name: stripping
the `mcp__<server>__` marker of `mcp__<server>__<tool>` yields `<tool>`. -/
theorem mcpDisplayName_strip (s t : String) :
    mcpDisplayName s (mcpCatalogName s t) = t := by
  unfold mcpDisplayName mcpCatalogName jsReplaceFirst
  have hd : ("mcp__" ++ s ++ "__" ++ t).data = ("mcp__" ++ s ++ "__").data ++ t.data := rfl
  rw [hd, listReplaceFirst_front]
  cases t
  rfl

/-- Catalog names of the same base tool from distinct servers differ. -/
theorem mcpCatalogName_injective_server (s1 s2 t : String) (h12 : s1 ≠ s2) :
    mcpCatalogName s1 t ≠ mcpCatalogName s2 t := by
  intro heq
  apply h12
  unfold mcpCatalogName at heq
  have hd : (("mcp__".data ++ s1.data) ++ "__".data) ++ t.data
      = (("mcp__".data ++ s2.data) ++ "__".data) ++ t.data := congrArg String.data heq
  have h1 := List.append_cancel_right hd
  have h2 := List.append_cancel_right h1
  have h3 := List.append_cancel_left h2
  exact String.ext h3

/-- C7 counterexample: the merged catalog names protocol tools
`mcp__<server>__<tool>`, not `<server>__<tool>` as the claim states: for
server `alpha` and tool `search` the claimed name differs from the code's,
the `mcp list` stripping recovers the base name only from the code's
format, and the chat view's parser recognizes only the code's format
(the claimed format falls through to the generic `Tool` label). -/
theorem mcp_name_convention_counterexample :
    specCatalogName "alpha" "search" ≠ mcpCatalogName "alpha" "search" ∧
    mcpDisplayName "alpha" (mcpCatalogName "alpha" "search") = "search" ∧
    mcpDisplayName "alpha" (specCatalogName "alpha" "search") = "alpha__search" ∧
    getToolActionName (mcpCatalogName "alpha" "search") = "Alpha(search)" ∧
    getToolActionName (specCatalogName "alpha" "search") = "Tool" := by
  refine ⟨by decide, rfl, rfl, by decide, by decide⟩

/-- C7 as amended: every protocol-sourced tool's name in the merged catalog
follows the `mcp__<server>__<toolname>` convention (an `mcp__` marker, then
the server name and the tool name joined by double underscores); for every
pair of distinct servers exposing a tool of the same base name the catalog
names are distinct, and the server's marker can be stripped back off to
recover the base name. -/
theorem mcp_names_server_namespaced (s1 s2 t s u : String) (h12 : s1 ≠ s2) :
    mcpCatalogName s1 t ≠ mcpCatalogName s2 t ∧
    mcpDisplayName s (mcpCatalogName s u) = u :=
  ⟨mcpCatalogName_injective_server s1 s2 t h12, mcpDisplayName_strip s u⟩

/-- Witness for C7 as amended at concrete servers and tool names. -/
theorem mcp_names_server_namespaced_witness :
    (("alpha" : String) ≠ "beta") ∧
    (mcpCatalogName "alpha" "search" ≠ mcpCatalogName "beta" "search" ∧
      mcpDisplayName "gamma" (mcpCatalogName "gamma" "fetch") = "fetch") :=
  ⟨by decide, mcp_names_server_namespaced "alpha" "beta" "search" "gamma" "fetch" (by decide)⟩

/-- One gate transition never surfaces a second simultaneous prompt. -/
theorem gateStep_shown_le_one (s : GateState) (ev : GateEvent)
    (h : s.shown.length ≤ 1) : (gateStep s ev).shown.length ≤ 1 := by
  cases ev with
  | request p =>
    simp only [gateStep]
    split_ifs with h1 h2
    · exact h
    · simp
    · simpa using h
  | decide approved remember =>
    have htake : (List.take 1 s.waiting).length ≤ 1 := by
      rw [List.length_take]
      exact Nat.min_le_left _ _
    cases hs : s.shown with
    | nil => simpa [gateStep, hs] using h
    | cons q rest => simpa [gateStep, hs] using htake

/-- The invariant holds after any event sequence from any invariant state. -/
theorem gateFold_shown_le_one (events : List GateEvent) (s : GateState)
    (h : s.shown.length ≤ 1) :
    ((events.foldl gateStep s).shown.length ≤ 1) := by
  induction events generalizing s with
  | nil => exact h
  | cons ev rest ih => exact ih _ (gateStep_shown_le_one s ev h)

/-- C4: at most one `PendingConfirmation` is surfaced to the human at any
instant — after any event sequence from a fresh session the gate shows at
most one prompt — and a request arriving while a prompt is pending is not
surfaced: the shown prompt is unchanged and the new request is suspended in
the waiting queue until a decision is made. -/
theorem at_most_one_pending_confirmation (events : List GateEvent)
    (s : GateState) (p : PendingConfirmation)
    (hpend : s.shown ≠ [])
    (hcov : coveredBy s.flags p.category = false) :
    (gateRun events).shown.length ≤ 1 ∧
    (gateStep s (.request p)).shown = s.shown ∧
    p ∈ (gateStep s (.request p)).waiting := by
  refine ⟨gateFold_shown_le_one events _ (by simp), ?_, ?_⟩ <;>
    · unfold gateStep
      simp [hcov, List.isEmpty_iff, hpend]

/-- Witness for C4: a second `bash`-category request arrives while a first
prompt is shown; it waits rather than being surfaced. -/
theorem at_most_one_pending_confirmation_witness :
    ((⟨[⟨"Run systemctl command", "systemctl stop nginx", none, "bash"⟩], [],
        ⟨false, false, false⟩⟩ : GateState).shown ≠ [] ∧
      coveredBy (⟨false, false, false⟩ : SessionFlags) "bash" = false) ∧
    ((gateRun [.request ⟨"Run apt command", "apt install -y jq", none, "bash"⟩,
        .request ⟨"Run systemctl command", "systemctl stop nginx", none, "bash"⟩]).shown.length ≤ 1 ∧
      (gateStep ⟨[⟨"Run systemctl command", "systemctl stop nginx", none, "bash"⟩], [],
          ⟨false, false, false⟩⟩
        (.request ⟨"Execute code in Docker container", "code.py", none, "bash"⟩)).shown
        = [⟨"Run systemctl command", "systemctl stop nginx", none, "bash"⟩] ∧
      (⟨"Execute code in Docker container", "code.py", none, "bash"⟩ : PendingConfirmation)
        ∈ (gateStep ⟨[⟨"Run systemctl command", "systemctl stop nginx", none, "bash"⟩], [],
            ⟨false, false, false⟩⟩
          (.request ⟨"Execute code in Docker container", "code.py", none, "bash"⟩)).waiting) :=
  ⟨⟨by decide, by decide⟩,
   at_most_one_pending_confirmation
     [.request ⟨"Run apt command", "apt install -y jq", none, "bash"⟩,
      .request ⟨"Run systemctl command", "systemctl stop nginx", none, "bash"⟩]
     ⟨[⟨"Run systemctl command", "systemctl stop nginx", none, "bash"⟩], [],
       ⟨false, false, false⟩⟩
     ⟨"Execute code in Docker container", "code.py", none, "bash"⟩
     (by decide) (by decide)⟩

/-- The orchestration loop only appends: the starting entries remain an
unchanged prefix of the final entry list. -/
theorem orchGo_preserves_entries (responses : Nat → ModelResponse) :
    ∀ (fuel round : Nat) (entries : List String),
      ∃ rest, (orchGo responses fuel round entries).1 = entries ++ rest := by
  intro fuel
  induction fuel with
  | zero => exact fun round entries => ⟨[], by simp [orchGo]⟩
  | succ n ih =>
    intro round entries
    unfold orchGo
    cases hr : responses round with
    | final t => exact ⟨[t], rfl⟩
    | toolUse calls =>
      obtain ⟨rest, hrest⟩ := ih (round + 1)
        (entries ++ calls.map (fun c => "tool_result " ++ toString c))
      exact ⟨calls.map (fun c => "tool_result " ++ toString c) ++ rest, by
        rw [hrest, List.append_assoc]⟩

/-- If the model keeps requesting tools, the loop ends in `roundLimit`. -/
theorem orchGo_roundLimit (responses : Nat → ModelResponse)
    (h : ∀ k, ∃ calls, responses k = .toolUse calls) :
    ∀ (fuel round : Nat) (entries : List String),
      (orchGo responses fuel round entries).2 = .roundLimit := by
  intro fuel
  induction fuel with
  | zero => exact fun round entries => rfl
  | succ n ih =>
    intro round entries
    obtain ⟨calls, hc⟩ := h round
    simp [orchGo, hc, ih]

/-- C8: the CLI resolves `--max-tool-rounds` to the default 400 when absent;
the orchestration loop is fuel-bounded by the configured maximum, and for
every conversation in which the model keeps requesting tool rounds past
that maximum the loop terminates with the non-fatal `roundLimit` outcome
while every prior conversation entry survives unchanged as a prefix. -/
theorem round_limit_bounds_loop (maxRounds : Nat)
    (responses : Nat → ModelResponse) (entries : List String)
    (halways : ∀ k, ∃ calls, responses k = .toolUse calls) :
    resolveMaxToolRounds none = 400 ∧
    maxToolRoundsDefault = 400 ∧
    (∃ rest, (orchestrate maxRounds responses entries).1 = entries ++ rest) ∧
    (orchestrate maxRounds responses entries).2 = .roundLimit :=
  ⟨rfl, rfl,
   orchGo_preserves_entries responses (maxRounds + 1) 0 entries,
   orchGo_roundLimit responses halways (maxRounds + 1) 0 entries⟩

/-- Witness for C8: a model that always answers with one tool call, a
two-round limit, one pre-existing entry. -/
theorem round_limit_bounds_loop_witness :
    (∀ k : Nat, ∃ calls, (fun _ : Nat => ModelResponse.toolUse [7]) k = .toolUse calls) ∧
    (resolveMaxToolRounds none = 400 ∧
      maxToolRoundsDefault = 400 ∧
      (∃ rest, (orchestrate 2 (fun _ => .toolUse [7]) ["user: hi"]).1 = ["user: hi"] ++ rest) ∧
      (orchestrate 2 (fun _ => .toolUse [7]) ["user: hi"]).2 = .roundLimit) :=
  ⟨fun k => ⟨[7], rfl⟩,
   round_limit_bounds_loop 2 (fun _ => .toolUse [7]) ["user: hi"] (fun k => ⟨[7], rfl⟩)⟩

/-- An index with an entry is in bounds. -/
theorem lt_length_of_get?_eq_some {l : List ChatEntry} {n : Nat} {a : ChatEntry}
    (h : l.get? n = some a) : n < l.length := by
  by_contra hc
  push_neg at hc
  rw [List.get?_eq_none.mpr hc] at h
  exact Option.noConfusion h

/-- `updateLastEntry` preserves the history length. -/
theorem updateLastEntry_length (f : ChatEntry → ChatEntry) :
    ∀ l : List ChatEntry, (updateLastEntry f l).length = l.length
  | [] => rfl
  | [_] => rfl
  | a :: b :: r => by
      show (a :: updateLastEntry f (b :: r)).length = (a :: b :: r).length
      simp [updateLastEntry_length f (b :: r)]

/-- `updateLastEntry` rewrites exactly the final position. -/
theorem updateLastEntry_get? (f : ChatEntry → ChatEntry) :
    ∀ (l : List ChatEntry) (i : Nat), i < l.length →
      (updateLastEntry f l).get? i =
        if i = l.length - 1 then (l.get? i).map f else l.get? i
  | [], i, hi => by simp at hi
  | [a], i, hi => by
      match i, hi with
      | 0, _ => simp [updateLastEntry]
  | a :: b :: r, i, hi => by
      match i, hi with
      | 0, _ => simp [updateLastEntry]
      | j + 1, hi =>
          have hj : j < (b :: r).length := by
            simpa [Nat.succ_lt_succ_iff] using hi
          have ih := updateLastEntry_get? f (b :: r) j hj
          show (a :: updateLastEntry f (b :: r)).get? (j + 1) = _
          rw [List.get?_cons_succ, ih]
          by_cases hifc : j = (b :: r).length - 1
          · have hifc2 : j + 1 = (a :: b :: r).length - 1 := by
              simp at hifc ⊢
              omega
            simp [hifc, hifc2]
          · have hifc2 : ¬(j + 1 = (a :: b :: r).length - 1) := by
              simp at hifc ⊢
              omega
            simp [hifc, hifc2]

/-- C6 counterexample: process a content delta, a two-call `tool_calls`
event, then the result of the first call.  The `tool_result` update rewrites
the matching `tool_call` entry at position 1 while the most recent entry is
at position 2 — an entry other than the most recent is changed, refuting
"every history update appends or mutates only the most recent entry". -/
theorem tool_result_mutates_non_last_entry :
    (tuiRun ⟨[], false⟩ [.content "hi", .toolCalls [1, 2]]).history.length = 3 ∧
    (tuiRun ⟨[], false⟩ [.content "hi", .toolCalls [1, 2],
        .toolResult 1 ⟨true, some "ok", none, false⟩]).history.length = 3 ∧
    (tuiRun ⟨[], false⟩ [.content "hi", .toolCalls [1, 2],
        .toolResult 1 ⟨true, some "ok", none, false⟩]).history.get? 1
      ≠ (tuiRun ⟨[], false⟩ [.content "hi", .toolCalls [1, 2]]).history.get? 1 ∧
    (tuiRun ⟨[], false⟩ [.content "hi", .toolCalls [1, 2],
        .toolResult 1 ⟨true, some "ok", none, false⟩]).history.get? 2
      = (tuiRun ⟨[], false⟩ [.content "hi", .toolCalls [1, 2]]).history.get? 2 := by
  refine ⟨rfl, rfl, by decide, by decide⟩

/-- C6 as amended: no history entry is ever deleted (the length never
decreases) and every streaming update either appends new entries at the end
or rewrites existing entries in place at their positions; an entry may be
rewritten only if it is the streaming-flagged entry, or (for a content
delta) the most recent entry, or (for a tool-result event) the `tool_call`
entry whose id matches the arriving result — which need not be the most
recent entry. -/
theorem history_updates_append_or_rewrite (s : TuiState) (c : StreamChunk)
    (i : Nat) (e : ChatEntry) (hi : s.history.get? i = some e) :
    s.history.length ≤ (tuiStep s c).history.length ∧
    ∃ e', (tuiStep s c).history.get? i = some e' ∧
      (e' = e ∨ mayMutate c e (decide (i = s.history.length - 1)) = true) := by
  have hilen : i < s.history.length := lt_length_of_get?_eq_some hi
  cases c with
  | content str =>
    by_cases hstr : str = ""
    · exact ⟨by simp [tuiStep, hstr], e, by simpa [tuiStep, hstr] using hi, Or.inl rfl⟩
    · cases hact : s.streamingActive with
      | false =>
        refine ⟨?_, e, ?_, Or.inl rfl⟩
        · simp [tuiStep, hstr, hact, addEntry]
        · simp only [tuiStep, hstr, hact]
          simpa [addEntry] using (List.get?_append hilen).trans hi
      | true =>
        refine ⟨?_, ?_⟩
        · simp [tuiStep, hstr, hact, updateLastEntry_length]
        · simp only [tuiStep, hstr, hact]
          rw [if_neg (by simp [hstr]), if_neg (by simp [hact])]
          rw [updateLastEntry_get? _ _ i hilen]
          by_cases hlast : i = s.history.length - 1
          · rw [if_pos hlast, hi]
            cases hstream : e.isStreaming with
            | false => exact ⟨_, rfl, Or.inl (by simp [hstream])⟩
            | true => exact ⟨_, rfl, Or.inr (by simp [mayMutate, hlast, hstream])⟩
          · exact ⟨e, by rw [if_neg hlast, hi], Or.inl rfl⟩
  | tokenCount n => exact ⟨le_refl _, e, by simpa [tuiStep] using hi, Or.inl rfl⟩
  | toolCalls ids =>
    refine ⟨by simp [tuiStep], ?_⟩
    have hmaplen : i < (s.history.map (fun e =>
        if e.isStreaming then { e with isStreaming := false, toolCalls := some ids }
        else e)).length := by simpa using hilen
    simp only [tuiStep]
    rw [List.get?_append hmaplen, List.get?_map, hi]
    cases hstream : e.isStreaming with
    | false => exact ⟨_, rfl, Or.inl (by simp [hstream])⟩
    | true => exact ⟨_, rfl, Or.inr (by simp [mayMutate, hstream])⟩
  | toolResult id r =>
    refine ⟨by simp [tuiStep], ?_⟩
    simp only [tuiStep]
    rw [List.get?_map, hi]
    cases hstream : e.isStreaming with
    | true => exact ⟨_, rfl, Or.inr (by simp [mayMutate, hstream])⟩
    | false =>
      by_cases hmatch : e.etype = .toolCall ∧ e.toolCallId = some id
      · exact ⟨_, rfl, Or.inr (by simp [mayMutate, hmatch.1, hmatch.2])⟩
      · exact ⟨_, rfl, Or.inl (by simp [hstream, hmatch])⟩
  | done =>
    cases hact : s.streamingActive with
    | false => exact ⟨by simp [tuiStep, hact], e, by simpa [tuiStep, hact] using hi, Or.inl rfl⟩
    | true =>
      refine ⟨by simp [tuiStep, hact], ?_⟩
      simp only [tuiStep, hact, if_pos]
      rw [List.get?_map, hi]
      cases hstream : e.isStreaming with
      | false => exact ⟨_, rfl, Or.inl (by simp [hstream])⟩
      | true => exact ⟨_, rfl, Or.inr (by simp [mayMutate, hstream])⟩

/-- Witness for C6 as amended: the tool-result update of the counterexample
scenario, applied at position 1 (the matching `tool_call` entry). -/
theorem history_updates_append_or_rewrite_witness :
    ((tuiRun ⟨[], false⟩ [.content "hi", .toolCalls [1, 2]]).history.get? 1
        = some ⟨.toolCall, "Executing...", false, none, some 1, none⟩) ∧
    ((tuiRun ⟨[], false⟩ [.content "hi", .toolCalls [1, 2]]).history.length ≤
      (tuiStep (tuiRun ⟨[], false⟩ [.content "hi", .toolCalls [1, 2]])
        (.toolResult 1 ⟨true, some "ok", none, false⟩)).history.length ∧
     ∃ e', (tuiStep (tuiRun ⟨[], false⟩ [.content "hi", .toolCalls [1, 2]])
          (.toolResult 1 ⟨true, some "ok", none, false⟩)).history.get? 1 = some e' ∧
       (e' = ⟨.toolCall, "Executing...", false, none, some 1, none⟩ ∨
         mayMutate (.toolResult 1 ⟨true, some "ok", none, false⟩)
           ⟨.toolCall, "Executing...", false, none, some 1, none⟩
           (decide (1 = (tuiRun ⟨[], false⟩
             [.content "hi", .toolCalls [1, 2]]).history.length - 1)) = true)) :=
  ⟨by decide,
   history_updates_append_or_rewrite
     (tuiRun ⟨[], false⟩ [.content "hi", .toolCalls [1, 2]])
     (.toolResult 1 ⟨true, some "ok", none, false⟩) 1
     ⟨.toolCall, "Executing...", false, none, some 1, none⟩ (by decide)⟩

/-- `updateLastEntry` on a history ending in `e` rewrites exactly `e`. -/
theorem updateLastEntry_append_singleton (f : ChatEntry → ChatEntry)
    (h : List ChatEntry) (e : ChatEntry) :
    updateLastEntry f (h ++ [e]) = h ++ [f e] := by
  induction h with
  | nil => rfl
  | cons a rest ih =>
    cases rest with
    | nil => rfl
    | cons b r2 =>
      show a :: updateLastEntry f ((b :: r2) ++ [e]) = a :: ((b :: r2) ++ [f e])
      rw [ih]

/-- Folding non-empty content deltas over a history whose final entry is the
streaming assistant entry appends them all to that entry's content. -/
theorem tuiRun_contents_extend (cs : List String) :
    ∀ (h : List ChatEntry) (e : ChatEntry), e.isStreaming = true →
      (∀ c ∈ cs, c ≠ "") →
      tuiRun ⟨h ++ [e], true⟩ (cs.map .content)
        = ⟨h ++ [{ e with content := e.content ++ concatAll cs }], true⟩ := by
  induction cs with
  | nil =>
    intro h e _ _
    show (⟨h ++ [e], true⟩ : TuiState) = _
    simp [concatAll]
  | cons c cs ih =>
    intro h e hs hne
    have hc : c ≠ "" := hne c (by simp)
    show tuiRun (tuiStep ⟨h ++ [e], true⟩ (.content c)) (cs.map .content) = _
    have hstep : tuiStep ⟨h ++ [e], true⟩ (.content c)
        = ⟨h ++ [{ e with content := e.content ++ c }], true⟩ := by
      simp only [tuiStep, hc, if_false, Bool.not_true, Bool.false_eq_true]
      rw [updateLastEntry_append_singleton]
      simp [hs]
    rw [hstep]
    rw [ih h _ (by simp [hs]) (fun x hx => hne x (by simp [hx]))]
    simp [concatAll, String.append_assoc]

/-- C9: starting from any history with no active streaming entry, processing
the content chunks `c1, ..., cn` (each non-empty, in arrival order) creates
exactly one assistant entry — appended on the first chunk — and after the
last chunk that entry's content equals the concatenation `c1 ++ ... ++ cn`;
all prior entries are untouched, and a stream with no content chunks
creates no assistant entry. -/
theorem content_chunks_build_single_assistant (h : List ChatEntry)
    (cs : List String) (hne : ∀ c ∈ cs, c ≠ "") :
    (cs = [] → tuiRun ⟨h, false⟩ (cs.map .content) = ⟨h, false⟩) ∧
    (∀ c0 rest, cs = c0 :: rest →
      tuiStep ⟨h, false⟩ (.content c0) = ⟨h ++ [mkStreamingAssistant c0], true⟩ ∧
      tuiRun ⟨h, false⟩ (cs.map .content)
        = ⟨h ++ [mkStreamingAssistant (concatAll cs)], true⟩) := by
  constructor
  · intro hcs
    subst hcs
    rfl
  · intro c0 rest hcs
    subst hcs
    have hc0 : c0 ≠ "" := hne c0 (by simp)
    have hstep : tuiStep ⟨h, false⟩ (.content c0)
        = ⟨h ++ [mkStreamingAssistant c0], true⟩ := by
      simp [tuiStep, hc0, addEntry]
    refine ⟨hstep, ?_⟩
    show tuiRun (tuiStep ⟨h, false⟩ (.content c0)) (rest.map .content) = _
    rw [hstep]
    rw [tuiRun_contents_extend rest h (mkStreamingAssistant c0) rfl
      (fun x hx => hne x (by simp [hx]))]
    simp [mkStreamingAssistant, concatAll]

/-- Witness for C9: two chunks `"Hel"`, `"lo"` onto an empty history build
one assistant entry with content `"Hello"`. -/
theorem content_chunks_build_single_assistant_witness :
    (∀ c ∈ (["Hel", "lo"] : List String), c ≠ "") ∧
    ((["Hel", "lo"] : List String) = [] →
        tuiRun ⟨[], false⟩ ((["Hel", "lo"] : List String).map .content) = ⟨[], false⟩) ∧
    (∀ c0 rest, (["Hel", "lo"] : List String) = c0 :: rest →
      tuiStep ⟨[], false⟩ (.content c0) = ⟨[] ++ [mkStreamingAssistant c0], true⟩ ∧
      tuiRun ⟨[], false⟩ ((["Hel", "lo"] : List String).map .content)
        = ⟨[] ++ [mkStreamingAssistant (concatAll ["Hel", "lo"])], true⟩) :=
  ⟨by decide, content_chunks_build_single_assistant [] ["Hel", "lo"] (by decide)⟩
